import Mathlib

/-!
Shallow embedding of the course-recommendation engine of
itmo_master_advisor (recommender/course_recommender.py) and proofs of the
specification claims about it.

Numeric scores are embedded as rationals: the Python code combines the
decimal constants 0.4, 0.3, 0.2, 0.1 and exact ratios of small integers,
which we render exactly as elements of ℚ.

Python strings are Lean strings; the substring operator `x in s` is the
function strOccurs; `str.lower()` is lowerStr (ASCII and Cyrillic case
folding, covering every keyword used by the program).
-/

namespace Advisor

/-- Skill levels, mirroring class SkillLevel(Enum). -/
inductive SkillLevel where
  | none
  | beginner
  | intermediate
  | advanced
deriving DecidableEq, Repr

/-- The .value string of each enum member, as in the Python source. -/
def SkillLevel.value : SkillLevel → String
  | .none => "none"
  | .beginner => "beginner"
  | .intermediate => "intermediate"
  | .advanced => "advanced"

/-- Python membership test `level.value in vs`, as used by the scorer. -/
def levelIn (l : SkillLevel) (vs : List String) : Bool :=
  vs.contains l.value

/-- dataclass UserSkills: eight skill dimensions, all defaulting to NONE. -/
structure UserSkills where
  python : SkillLevel := .none
  math : SkillLevel := .none
  statistics : SkillLevel := .none
  ml_basics : SkillLevel := .none
  deep_learning : SkillLevel := .none
  nlp : SkillLevel := .none
  computer_vision : SkillLevel := .none
  mlops : SkillLevel := .none
deriving DecidableEq, Repr

/-- dataclass Course. `semester` is a Python int, embedded as ℤ. -/
structure Course where
  name : String
  program : String
  semester : ℤ
  course_type : String
  credits : ℕ
  description : String := ""
  prerequisites : List String := []
  skills_gained : List String := []
  difficulty : String := "medium"
deriving DecidableEq, Repr

/-- dataclass CourseRecommendation. -/
structure CourseRecommendation where
  course : Course
  score : ℚ
  reasoning : String
  priority : ℤ
deriving DecidableEq, Repr

/-- Case-fold one character: ASCII A–Z and Cyrillic А–Я/Ё (the alphabets
occurring in the program's keyword tables), like Python str.lower. -/
def lowerChar (c : Char) : Char :=
  if 'A' ≤ c ∧ c ≤ 'Z' then Char.ofNat (c.toNat + 32)
  else if 'А' ≤ c ∧ c ≤ 'Я' then Char.ofNat (c.toNat + 32)
  else if c = 'Ё' then 'ё'
  else c

/-- Python str.lower(), character by character. -/
def lowerStr (s : String) : String := ⟨s.data.map lowerChar⟩

/-- Does the first list stand at the head of the second? -/
def leadsWith : List Char → List Char → Bool
  | [], _ => true
  | _ :: _, [] => false
  | a :: as, b :: bs => a = b && leadsWith as bs

/-- Does the first list occur contiguously inside the second? -/
def hasSub (n : List Char) : List Char → Bool
  | [] => leadsWith n []
  | c :: rest => leadsWith n (c :: rest) || hasSub n rest

/-- Python substring test `needle in hay`. -/
def strOccurs (needle hay : String) : Bool :=
  hasSub needle.toList hay.toList

/-- Python `any(word in text for word in kws)`. -/
def containsAny (text : String) (kws : List String) : Bool :=
  kws.any (fun k => strOccurs k text)

/-- Field assignment skills.python = v. -/
@[simps]
def UserSkills.setPython (s : UserSkills) (v : SkillLevel) : UserSkills :=
  { s with python := v }

/-- Field assignment skills.math = v. -/
@[simps]
def UserSkills.setMath (s : UserSkills) (v : SkillLevel) : UserSkills :=
  { s with math := v }

/-- Field assignment skills.statistics = v. -/
@[simps]
def UserSkills.setStatistics (s : UserSkills) (v : SkillLevel) : UserSkills :=
  { s with statistics := v }

/-- Field assignment skills.ml_basics = v. -/
@[simps]
def UserSkills.setMlBasics (s : UserSkills) (v : SkillLevel) : UserSkills :=
  { s with ml_basics := v }

/-- Field assignment skills.deep_learning = v. -/
@[simps]
def UserSkills.setDeepLearning (s : UserSkills) (v : SkillLevel) : UserSkills :=
  { s with deep_learning := v }

/-- Field assignment skills.nlp = v. -/
@[simps]
def UserSkills.setNlp (s : UserSkills) (v : SkillLevel) : UserSkills :=
  { s with nlp := v }

/-- Field assignment skills.computer_vision = v. -/
@[simps]
def UserSkills.setComputerVision (s : UserSkills) (v : SkillLevel) : UserSkills :=
  { s with computer_vision := v }

/-- Field assignment skills.mlops = v. -/
@[simps]
def UserSkills.setMlops (s : UserSkills) (v : SkillLevel) : UserSkills :=
  { s with mlops := v }

/-- UserSkills.from_background: keyword heuristics over the case-folded
background text, translated statement by statement from the source; each
branch performs the source's field assignments in order. -/
def UserSkills.from_background (background : String) : UserSkills :=
  let background_lower := lowerStr background
  let skills : UserSkills := {}
  let skills :=
    if containsAny background_lower ["python", "питон", "программирован"] then
      skills.setPython .intermediate else skills
  let skills :=
    if strOccurs "senior" background_lower || strOccurs "lead" background_lower then
      skills.setPython .advanced else skills
  let skills :=
    if containsAny background_lower ["математик", "math", "физик", "мехмат"] then
      (skills.setMath .advanced).setStatistics .intermediate else skills
  let skills :=
    if containsAny background_lower ["ml", "machine learning", "машинн"] then
      skills.setMlBasics .intermediate else skills
  let skills :=
    if containsAny background_lower ["data scien", "ds", "аналитик данных"] then
      (skills.setMlBasics .intermediate).setStatistics .intermediate else skills
  let skills :=
    if containsAny background_lower ["deep learning", "нейронн", "pytorch", "tensorflow"] then
      skills.setDeepLearning .intermediate else skills
  let skills :=
    if containsAny background_lower ["nlp", "нлп", "обработка текст", "natural language"] then
      skills.setNlp .intermediate else skills
  let skills :=
    if containsAny background_lower ["computer vision", "cv", "компьютерн зрен", "opencv"] then
      skills.setComputerVision .intermediate else skills
  let skills :=
    if containsAny background_lower ["mlops", "devops", "docker", "kubernetes", "deploy"] then
      skills.setMlops .intermediate else skills
  skills

/-- The body of the loop in _check_prerequisites: how much one prerequisite
label adds to met_prerequisites (0 or 1), translated from the if/elif chain. -/
def prereqContribution (user_skills : UserSkills) (prereq : String) : ℕ :=
  let prereq_lower := lowerStr prereq
  if strOccurs "python" prereq_lower
      && levelIn user_skills.python ["intermediate", "advanced"] then 1
  else if strOccurs "машинн" prereq_lower || strOccurs "ml" prereq_lower then
    if levelIn user_skills.ml_basics ["intermediate", "advanced"] then 1 else 0
  else if strOccurs "глубок" prereq_lower || strOccurs "deep" prereq_lower then
    if levelIn user_skills.deep_learning ["intermediate", "advanced"] then 1 else 0
  else if strOccurs "статист" prereq_lower || strOccurs "вероятн" prereq_lower then
    if levelIn user_skills.statistics ["intermediate", "advanced"] then 1 else 0
  else if strOccurs "алгебр" prereq_lower || strOccurs "math" prereq_lower then
    if levelIn user_skills.math ["intermediate", "advanced"] then 1 else 0
  else 0

/-- CourseRecommender._check_prerequisites. -/
def checkPrerequisites (course : Course) (user_skills : UserSkills) : ℚ :=
  if course.prerequisites = [] then 1
  else
    ((course.prerequisites.map (prereqContribution user_skills)).sum : ℚ) /
      (course.prerequisites.length : ℚ)

/-- Python sep.join(parts). -/
def pyJoin (sep : String) : List String → String
  | [] => ""
  | [a] => a
  | a :: b :: rest => a ++ sep ++ pyJoin sep (b :: rest)

/-- The interests that match a course: the loop in _score_course collects
exactly the interests whose case-folded text occurs in the case-folded
course name or description. -/
def interestMatches (course : Course) (interests : List String) : List String :=
  interests.filter (fun interest =>
    strOccurs (lowerStr interest) (lowerStr course.name) ||
    strOccurs (lowerStr interest) (lowerStr course.description))

/-- The accumulated interest_score: 0.4 for each matching interest. -/
def interestScoreRaw (course : Course) (interests : List String) : ℚ :=
  (2 / 5) * ((interestMatches course interests).length : ℚ)

/-- The interest contribution to the total: min(interest_score, 0.4). -/
def interestComponent (course : Course) (interests : List String) : ℚ :=
  min (interestScoreRaw course interests) (2 / 5)

/-- CourseRecommender._calculate_growth_potential. -/
def calculateGrowthPotential (course : Course) (user_skills : UserSkills) : ℚ :=
  if course.skills_gained = [] then 1 / 2
  else
    let course_skills_text := lowerStr (pyJoin " " course.skills_gained)
    let new_skills : ℕ :=
      (if (strOccurs "nlp" course_skills_text || strOccurs "text" course_skills_text)
          && levelIn user_skills.nlp ["none", "beginner"] then 1 else 0) +
      (if (strOccurs "cv" course_skills_text || strOccurs "vision" course_skills_text
            || strOccurs "image" course_skills_text)
          && levelIn user_skills.computer_vision ["none", "beginner"] then 1 else 0) +
      (if (strOccurs "pytorch" course_skills_text || strOccurs "нейрон" course_skills_text)
          && levelIn user_skills.deep_learning ["none", "beginner"] then 1 else 0) +
      (if (strOccurs "docker" course_skills_text || strOccurs "deploy" course_skills_text)
          && levelIn user_skills.mlops ["none", "beginner"] then 1 else 0)
    min ((new_skills : ℚ) / 2) 1

/-- CourseRecommender._calculate_career_value. -/
def calculateCareerValue (course : Course) : ℚ :=
  let high_value_keywords : List String :=
    ["deep learning", "глубокое", "nlp", "computer vision",
     "mlops", "transformer", "llm", "генеративн"]
  let course_text := lowerStr (course.name ++ " " ++ course.description)
  let matchCount := (high_value_keywords.filter (fun kw => strOccurs kw course_text)).length
  min ((matchCount : ℚ) / 3) 1

/-- The reasons list assembled inside _score_course, in program order. -/
def scoreReasons (course : Course) (user_skills : UserSkills)
    (interests : List String) : List String :=
  (if interestMatches course interests = [] then []
   else ["Соответствует интересам: " ++ pyJoin ", " (interestMatches course interests)]) ++
  (if checkPrerequisites course user_skills > 7 / 10 then ["Хорошая база для этого курса"]
   else if checkPrerequisites course user_skills < 3 / 10 then
     ["Может потребоваться дополнительная подготовка"]
   else []) ++
  (if calculateGrowthPotential course user_skills > 7 / 10 then
     ["Поможет освоить новые востребованные навыки"]
   else []) ++
  (if calculateCareerValue course > 7 / 10 then ["Высокая востребованность на рынке"]
   else [])

/-- CourseRecommender._score_course: the (score, reasoning) pair. -/
def scoreCourse (course : Course) (user_skills : UserSkills)
    (interests : List String) : ℚ × String :=
  let score :=
    interestComponent course interests +
    checkPrerequisites course user_skills * (3 / 10) +
    calculateGrowthPotential course user_skills * (1 / 5) +
    calculateCareerValue course * (1 / 10)
  let reasons := scoreReasons course user_skills interests
  (score, if reasons = [] then "Общий выборный курс" else pyJoin "; " reasons)

/-- CourseRecommender.get_elective_courses: keep elective courses, then
apply the optional program filter. Python tests the filter with `if
program:`, which is false for None and for the empty string. -/
def getElectiveCourses (courses : List Course) (program : Option String) : List Course :=
  let cs := courses.filter (fun c => c.course_type = "выборная")
  match program with
  | Option.none => cs
  | Option.some p =>
    if p = "" then cs
    else cs.filter (fun c => strOccurs (lowerStr p) (lowerStr c.program))

/-- Python slice l[:m], for any integer m (negative m drops -m elements
from the end). -/
def pythonTake (m : ℤ) (l : List α) : List α :=
  if m < 0 then l.take (l.length - (-m).toNat) else l.take m.toNat

/-- CourseRecommender.recommend_courses. The catalog held by the
recommender object is the `courses` parameter. Python's stable
score-descending sort is mergeSort with the comparison b.score ≤ a.score. -/
def recommendCourses (courses : List Course) (user_background : String)
    (interests : List String) (program : Option String)
    (max_recommendations : ℤ) : List CourseRecommendation :=
  let user_skills := UserSkills.from_background user_background
  let electives := getElectiveCourses courses program
  if electives = [] then []
  else
    let recommendations : List CourseRecommendation := electives.map (fun course =>
      { course := course
        score := (scoreCourse course user_skills interests).1
        reasoning := (scoreCourse course user_skills interests).2
        priority := 0 })
    let sorted := recommendations.mergeSort (fun a b => b.score ≤ a.score)
    let retained := pythonTake max_recommendations sorted
    retained.mapIdx (fun i r => { r with priority := (i : ℤ) + 1 })

/-- Appending to a bucket of a Python dict rendered as an association
list: plan[k].append(c). A missing key is a KeyError, rendered as none. -/
def dictAppend (d : List (ℤ × List Course)) (k : ℤ) (c : Course) :
    Option (List (ℤ × List Course)) :=
  match d with
  | [] => Option.none
  | (k', v) :: rest =>
    if k' = k then Option.some ((k', v ++ [c]) :: rest)
    else (dictAppend rest k c).map (fun d' => (k', v) :: d')

/-- Python range(1, n+1) as a list of integers. -/
def pyRange1 (n : ℤ) : List ℤ :=
  (List.range n.toNat).map (fun i : ℕ => (i : ℤ) + 1)

/-- CourseRecommender.get_study_plan. The dict comprehension builds buckets
1..semesters; each recommended course whose semester is within the horizon
is appended to plan[semester], which raises KeyError (none) when that key
does not exist. -/
def getStudyPlan (recommendations : List CourseRecommendation)
    (semesters : ℤ) : Option (List (ℤ × List Course)) :=
  let init := (pyRange1 semesters).map (fun i => (i, ([] : List Course)))
  recommendations.foldlM
    (fun plan r =>
      if r.course.semester ≤ semesters then dictAppend plan r.course.semester r.course
      else Option.some plan)
    init

/-- CourseRecommender._get_default_courses: the built-in seed catalog. -/
def getDefaultCourses : List Course :=
  [{ name := "Машинное обучение", program := "AI", semester := 1,
     course_type := "обязательная", credits := 4,
     description := "Основы ML: регрессия, классификация, кластеризация",
     prerequisites := ["Python", "Линейная алгебра"],
     skills_gained := ["sklearn", "pandas", "ML pipelines"] },
   { name := "Глубокое обучение", program := "AI", semester := 2,
     course_type := "обязательная", credits := 4,
     description := "Нейронные сети, CNN, RNN, Transformers",
     prerequisites := ["Машинное обучение"],
     skills_gained := ["PyTorch", "Нейронные сети"] },
   { name := "Математическая статистика", program := "AI", semester := 1,
     course_type := "обязательная", credits := 3,
     description := "Статистические методы для ML",
     prerequisites := ["Теория вероятностей"],
     skills_gained := ["Статистический анализ", "A/B тесты"] },
   { name := "MLOps", program := "AI", semester := 3,
     course_type := "обязательная", credits := 3,
     description := "Развёртывание и мониторинг ML-систем",
     prerequisites := ["Машинное обучение", "Docker"],
     skills_gained := ["Docker", "CI/CD", "Model serving"] },
   { name := "Компьютерное зрение", program := "AI", semester := 2,
     course_type := "выборная", credits := 3,
     description := "Обработка изображений, детекция, сегментация",
     prerequisites := ["Глубокое обучение"],
     skills_gained := ["OpenCV", "CNN", "Object Detection"],
     difficulty := "high" },
   { name := "Обработка естественного языка", program := "AI", semester := 2,
     course_type := "выборная", credits := 3,
     description := "NLP: токенизация, эмбеддинги, трансформеры",
     prerequisites := ["Глубокое обучение"],
     skills_gained := ["Transformers", "BERT", "Text processing"],
     difficulty := "high" },
   { name := "Reinforcement Learning", program := "AI", semester := 3,
     course_type := "выборная", credits := 3,
     description := "Обучение с подкреплением",
     prerequisites := ["Глубокое обучение", "Теория вероятностей"],
     skills_gained := ["RL algorithms", "Gym", "Policy optimization"],
     difficulty := "high" },
   { name := "Генеративные модели", program := "AI", semester := 3,
     course_type := "выборная", credits := 3,
     description := "VAE, GAN, Diffusion models",
     prerequisites := ["Глубокое обучение"],
     skills_gained := ["GANs", "Diffusion", "Image generation"],
     difficulty := "high" },
   { name := "Big Data", program := "AI", semester := 2,
     course_type := "выборная", credits := 3,
     description := "Spark, распределённые вычисления",
     prerequisites := ["Python", "SQL"],
     skills_gained := ["Spark", "Hadoop", "Distributed computing"] },
   { name := "Управление AI-продуктом", program := "AI Product", semester := 1,
     course_type := "обязательная", credits := 3,
     description := "Product management для AI-продуктов",
     prerequisites := [],
     skills_gained := ["Product thinking", "Roadmap", "Metrics"] },
   { name := "Дизайн AI-систем", program := "AI Product", semester := 2,
     course_type := "обязательная", credits := 3,
     description := "Проектирование архитектуры ML-систем",
     prerequisites := ["Машинное обучение"],
     skills_gained := ["System design", "ML architecture"] },
   { name := "AI Ethics", program := "AI Product", semester := 2,
     course_type := "выборная", credits := 2,
     description := "Этика искусственного интеллекта",
     prerequisites := [],
     skills_gained := ["AI Ethics", "Responsible AI", "Bias detection"] }]

/-- CourseRecommender._load_courses with the records successfully parsed
from the JSON catalog files passed in as a parameter (the file reading
itself stands outside the embedding): the loader returns those records and
falls back to the default catalog exactly when there are none. -/
def loadCourses (fileCourses : List Course) : List Course :=
  if fileCourses = [] then getDefaultCourses else fileCourses

/-! ### Specification-side definitions

These render sentences of the specification, for comparison with the
definitions translated from the source. -/

/-- Ordinal rank of a skill level (the enum is totally ordered). -/
def SkillLevel.rank : SkillLevel → ℕ
  | .none => 0
  | .beginner => 1
  | .intermediate => 2
  | .advanced => 3

/-- The spec's threshold check: the dimension is at least INTERMEDIATE. -/
def atLeastIntermediate (l : SkillLevel) : Bool :=
  2 ≤ l.rank

/-- The python keyword group, applied to the case-folded label. -/
def matchesPythonGroup (pl : String) : Bool :=
  strOccurs "python" pl

/-- The ML-basics keyword group. -/
def matchesMlGroup (pl : String) : Bool :=
  strOccurs "машинн" pl || strOccurs "ml" pl

/-- The deep-learning keyword group. -/
def matchesDlGroup (pl : String) : Bool :=
  strOccurs "глубок" pl || strOccurs "deep" pl

/-- The statistics/probability keyword group. -/
def matchesStatsGroup (pl : String) : Bool :=
  strOccurs "статист" pl || strOccurs "вероятн" pl

/-- The mathematics keyword group. -/
def matchesMathGroup (pl : String) : Bool :=
  strOccurs "алгебр" pl || strOccurs "math" pl

/-- Modelled from the spec sentence behind C2: a prerequisite is satisfied
if its text matches one of the five keyword groups AND the corresponding
profile dimension is at least INTERMEDIATE (read as: some matching group
has a sufficient dimension). -/
def specPrereqSatisfied (u : UserSkills) (p : String) : Bool :=
  let pl := lowerStr p
  (matchesPythonGroup pl && atLeastIntermediate u.python) ||
  (matchesMlGroup pl && atLeastIntermediate u.ml_basics) ||
  (matchesDlGroup pl && atLeastIntermediate u.deep_learning) ||
  (matchesStatsGroup pl && atLeastIntermediate u.statistics) ||
  (matchesMathGroup pl && atLeastIntermediate u.math)

/-- The readiness the spec sentence of C2 describes: fraction of satisfied
prerequisite labels, 1 when there are none. -/
def specReadiness (c : Course) (u : UserSkills) : ℚ :=
  if c.prerequisites = [] then 1
  else (c.prerequisites.countP (specPrereqSatisfied u) : ℚ) /
    (c.prerequisites.length : ℚ)

/-- The amended satisfaction rule (C2): a prerequisite matching the python
group with a sufficient python dimension is satisfied; otherwise it is
judged against the first group among ML, deep learning, statistics and
mathematics whose keywords occur, and is satisfied exactly when that
group's dimension is at least INTERMEDIATE; matching no group leaves it
unsatisfied. -/
def specPrereqSatisfiedAmended (u : UserSkills) (p : String) : Bool :=
  let pl := lowerStr p
  if matchesPythonGroup pl && atLeastIntermediate u.python then true
  else if matchesMlGroup pl then atLeastIntermediate u.ml_basics
  else if matchesDlGroup pl then atLeastIntermediate u.deep_learning
  else if matchesStatsGroup pl then atLeastIntermediate u.statistics
  else if matchesMathGroup pl then atLeastIntermediate u.math
  else false

/-- The per-label contribution C9 claims (strict first-match): the label is
judged against only the first keyword group it matches, in the order
python, ML, deep learning, statistics, mathematics. -/
def specStrictFirstMatch (u : UserSkills) (p : String) : ℕ :=
  let pl := lowerStr p
  if matchesPythonGroup pl then if atLeastIntermediate u.python then 1 else 0
  else if matchesMlGroup pl then if atLeastIntermediate u.ml_basics then 1 else 0
  else if matchesDlGroup pl then if atLeastIntermediate u.deep_learning then 1 else 0
  else if matchesStatsGroup pl then if atLeastIntermediate u.statistics then 1 else 0
  else if matchesMathGroup pl then if atLeastIntermediate u.math then 1 else 0
  else 0

/-- The amended per-label contribution (C9): as strict first-match, except
that a label matching the python group whose python dimension is below
INTERMEDIATE falls through and is judged against the remaining groups. -/
def specFallthroughContribution (u : UserSkills) (p : String) : ℕ :=
  let pl := lowerStr p
  if matchesPythonGroup pl && atLeastIntermediate u.python then 1
  else if matchesMlGroup pl then if atLeastIntermediate u.ml_basics then 1 else 0
  else if matchesDlGroup pl then if atLeastIntermediate u.deep_learning then 1 else 0
  else if matchesStatsGroup pl then if atLeastIntermediate u.statistics then 1 else 0
  else if matchesMathGroup pl then if atLeastIntermediate u.math then 1 else 0
  else 0

/-- The spec's growth condition: the dimension is below INTERMEDIATE,
that is, still NONE or BEGINNER. -/
def belowIntermediate (l : SkillLevel) : Bool :=
  l = .none || l = .beginner

/-- The four growth areas of the claim (NLP, computer vision, deep
learning/neural-network, deployment/ops): for each, whether its keywords
appear in the course's granted-skill text while the profile's
corresponding dimension is below INTERMEDIATE. -/
def growthAreaFlags (course : Course) (u : UserSkills) : List Bool :=
  let t := lowerStr (pyJoin " " course.skills_gained)
  [(strOccurs "nlp" t || strOccurs "text" t) && belowIntermediate u.nlp,
   (strOccurs "cv" t || strOccurs "vision" t || strOccurs "image" t) &&
     belowIntermediate u.computer_vision,
   (strOccurs "pytorch" t || strOccurs "нейрон" t) && belowIntermediate u.deep_learning,
   (strOccurs "docker" t || strOccurs "deploy" t) && belowIntermediate u.mlops]

/-- The growth potential as the C8 claim words it: 0.5 with no
granted-skill labels, otherwise the number of matched growth areas capped
at 2 and divided by 2. -/
def specGrowthPotential (course : Course) (u : UserSkills) : ℚ :=
  if course.skills_gained = [] then 1 / 2
  else ((min ((growthAreaFlags course u).count true) 2 : ℕ) : ℚ) / 2

/-- The study plan the amended C5 claim describes: one bucket per term
1..H in order, bucket i holding, in input order, the courses of the
recommendations whose term is exactly i. -/
def bucketsSpec (recs : List CourseRecommendation) (H : ℤ) :
    List (ℤ × List Course) :=
  (pyRange1 H).map (fun i =>
    (i, (recs.filter (fun r => r.course.semester = i)).map (fun r => r.course)))

/-- A course carrying term number 0, for the C5 counterexample. -/
def c5BadCourse : Course :=
  { name := "Курс с нулевым семестром", program := "AI",
    semester := 0, course_type := "выборная", credits := 3 }

/-- A recommendation whose course carries term number 0, the C5
counterexample input. -/
def c5BadRec : CourseRecommendation :=
  { course := c5BadCourse, score := 0, reasoning := "", priority := 1 }

/-- A term-1 course for the C5 witness. -/
def c5CourseA : Course :=
  { name := "Математическая статистика", program := "AI",
    semester := 1, course_type := "обязательная", credits := 3 }

/-- A term-1 recommendation for the C5 witness. -/
def c5RecA : CourseRecommendation :=
  { course := c5CourseA, score := 1 / 2, reasoning := "", priority := 1 }

/-- A term-3 course for the C5 witness (beyond the horizon 2). -/
def c5CourseB : Course :=
  { name := "Reinforcement Learning", program := "AI",
    semester := 3, course_type := "выборная", credits := 3 }

/-- A term-3 recommendation for the C5 witness. -/
def c5RecB : CourseRecommendation :=
  { course := c5CourseB, score := 1 / 4, reasoning := "", priority := 2 }

/-- A plain course used to instantiate the C10 theorem. -/
def c10Course : Course :=
  { name := "Big Data", program := "AI", semester := 2,
    course_type := "выборная", credits := 3,
    description := "Spark, распределённые вычисления" }

/-- The course used in the C2 counterexample: one prerequisite label whose
text matches both the ML group and the deep-learning group. -/
def c2Course : Course :=
  { name := "Генеративные модели", program := "AI", semester := 3,
    course_type := "выборная", credits := 3,
    prerequisites := ["Машинное обучение и глубокое обучение"] }

/-- The profile used in the C2 counterexample: deep learning INTERMEDIATE,
everything else NONE. -/
def c2Profile : UserSkills :=
  { deep_learning := .intermediate }

/-- The profile used in the C9 counterexample: ML basics INTERMEDIATE,
python NONE. -/
def c9Profile : UserSkills :=
  { ml_basics := .intermediate }

/-! ### Bounds of the sub-scores -/

theorem prereqContribution_le_one (u : UserSkills) (p : String) :
    prereqContribution u p ≤ 1 := by
  unfold prereqContribution
  dsimp only
  split_ifs <;> omega

theorem checkPrerequisites_nonneg (c : Course) (u : UserSkills) :
    0 ≤ checkPrerequisites c u := by
  unfold checkPrerequisites
  split
  · norm_num
  · exact div_nonneg (by positivity) (by positivity)

theorem checkPrerequisites_le_one (c : Course) (u : UserSkills) :
    checkPrerequisites c u ≤ 1 := by
  unfold checkPrerequisites
  split
  · exact le_refl 1
  · rename_i hne
    have hlen : 0 < c.prerequisites.length := List.length_pos.mpr hne
    rw [div_le_one (by exact_mod_cast hlen)]
    have hsum : (c.prerequisites.map (prereqContribution u)).sum ≤
        c.prerequisites.length := by
      have := List.sum_le_card_nsmul (c.prerequisites.map (prereqContribution u)) 1
        (by
          intro x hx
          obtain ⟨p, _, rfl⟩ := List.mem_map.mp hx
          exact prereqContribution_le_one u p)
      simpa using this
    exact_mod_cast hsum

theorem calculateGrowthPotential_nonneg (c : Course) (u : UserSkills) :
    0 ≤ calculateGrowthPotential c u := by
  unfold calculateGrowthPotential
  dsimp only
  split
  · norm_num
  · exact le_min (by positivity) (by norm_num)

theorem calculateGrowthPotential_le_one (c : Course) (u : UserSkills) :
    calculateGrowthPotential c u ≤ 1 := by
  unfold calculateGrowthPotential
  dsimp only
  split
  · norm_num
  · exact min_le_right _ _

theorem calculateCareerValue_nonneg (c : Course) :
    0 ≤ calculateCareerValue c := by
  unfold calculateCareerValue
  exact le_min (by positivity) (by norm_num)

theorem calculateCareerValue_le_one (c : Course) :
    calculateCareerValue c ≤ 1 := by
  unfold calculateCareerValue
  exact min_le_right _ _

theorem interestComponent_nonneg (c : Course) (ints : List String) :
    0 ≤ interestComponent c ints := by
  unfold interestComponent interestScoreRaw
  exact le_min (by positivity) (by norm_num)

theorem interestComponent_le (c : Course) (ints : List String) :
    interestComponent c ints ≤ 2 / 5 :=
  min_le_right _ _

/-- C1: for every course, skill profile and interest list, the score
returned by _score_course lies in the closed interval [0, 1]. -/
theorem scoreCourse_mem_unit_interval (c : Course) (u : UserSkills)
    (ints : List String) :
    0 ≤ (scoreCourse c u ints).1 ∧ (scoreCourse c u ints).1 ≤ 1 := by
  have h1 := interestComponent_nonneg c ints
  have h2 := interestComponent_le c ints
  have h3 := checkPrerequisites_nonneg c u
  have h4 := checkPrerequisites_le_one c u
  have h5 := calculateGrowthPotential_nonneg c u
  have h6 := calculateGrowthPotential_le_one c u
  have h7 := calculateCareerValue_nonneg c
  have h8 := calculateCareerValue_le_one c
  unfold scoreCourse
  dsimp only
  constructor <;> nlinarith

/-! ### Prerequisite satisfaction: C2 and C9 -/

theorem levelIn_intermediate_advanced (l : SkillLevel) :
    levelIn l ["intermediate", "advanced"] = atLeastIntermediate l := by
  cases l <;> rfl

theorem contribution_shape (a1 a2 a3 a4 a5 b1 b2 b3 b4 b5 : Bool) :
    (if a1 && b1 then 1
     else if a2 then if b2 then 1 else 0
     else if a3 then if b3 then 1 else 0
     else if a4 then if b4 then 1 else 0
     else if a5 then if b5 then 1 else 0
     else 0 : ℕ) =
    if (if a1 && b1 then true
        else if a2 then b2
        else if a3 then b3
        else if a4 then b4
        else if a5 then b5
        else false) then 1 else 0 := by
  cases a1 <;> cases a2 <;> cases a3 <;> cases a4 <;> cases a5 <;>
    cases b1 <;> cases b2 <;> cases b3 <;> cases b4 <;> cases b5 <;> rfl

theorem prereqContribution_eq_ite (u : UserSkills) (p : String) :
    prereqContribution u p = if specPrereqSatisfiedAmended u p then 1 else 0 := by
  unfold prereqContribution specPrereqSatisfiedAmended matchesPythonGroup
    matchesMlGroup matchesDlGroup matchesStatsGroup matchesMathGroup
  simp only [levelIn_intermediate_advanced]
  exact contribution_shape _ _ _ _ _ _ _ _ _ _

theorem sum_map_indicator (f : String → Bool) (l : List String) :
    (l.map (fun p => if f p then (1 : ℕ) else 0)).sum = l.countP f := by
  induction l with
  | nil => rfl
  | cons a t ih =>
    simp only [List.map_cons, List.sum_cons, List.countP_cons, ih]
    cases h : f a <;> simp [h, Nat.add_comm]

/-- C2 counterexample: on a course whose single prerequisite label matches
both the ML group and the deep-learning group, against a profile whose
deep-learning dimension is INTERMEDIATE and ML dimension NONE, the code's
readiness is 0 while the claimed rule (satisfied when some matching group's
dimension is at least INTERMEDIATE) yields 1. -/
theorem checkPrerequisites_ne_specReadiness :
    checkPrerequisites c2Course c2Profile = 0 ∧
    specReadiness c2Course c2Profile = 1 ∧
    checkPrerequisites c2Course c2Profile ≠ specReadiness c2Course c2Profile := by
  have h0 : (List.map (prereqContribution c2Profile) c2Course.prerequisites).sum = 0 := by
    decide
  have h1 : List.countP (specPrereqSatisfied c2Profile) c2Course.prerequisites = 1 := by
    decide
  have hne : ¬ c2Course.prerequisites = [] := by decide
  have hlen : c2Course.prerequisites.length = 1 := by decide
  have hc : checkPrerequisites c2Course c2Profile = 0 := by
    unfold checkPrerequisites
    rw [if_neg hne, h0, hlen]
    norm_num
  have hs : specReadiness c2Course c2Profile = 1 := by
    unfold specReadiness
    rw [if_neg hne, h1, hlen]
    norm_num
  exact ⟨hc, hs, by rw [hc, hs]; norm_num⟩

/-- C2 amended: the readiness sub-score equals the fraction of prerequisite
labels satisfied, where a label matching the python keyword group with
python at least INTERMEDIATE is satisfied, any other label is judged
against the first group among ML, deep learning, statistics/probability,
mathematics whose keywords occur in it, and a label matching no group
counts as unsatisfied; a course with no prerequisites has readiness 1.0. -/
theorem checkPrerequisites_eq_specAmended (c : Course) (u : UserSkills) :
    checkPrerequisites c u =
      if c.prerequisites = [] then 1
      else (c.prerequisites.countP (specPrereqSatisfiedAmended u) : ℚ) /
        (c.prerequisites.length : ℚ) := by
  unfold checkPrerequisites
  split
  · rfl
  · rw [List.map_congr_left (fun p _ => prereqContribution_eq_ite u p),
      sum_map_indicator]

/-- C9 counterexample: the label "Python и ML" matches the python group
(the earliest), the profile's python dimension is below INTERMEDIATE, yet
the code credits the label through the later ML group, which strict
first-match judging would forbid. -/
theorem prereqContribution_ne_strictFirstMatch :
    prereqContribution c9Profile "Python и ML" = 1 ∧
    specStrictFirstMatch c9Profile "Python и ML" = 0 ∧
    matchesPythonGroup (lowerStr "Python и ML") = true ∧
    atLeastIntermediate c9Profile.python = false := by
  decide

/-- C9 amended: each prerequisite label contributes at most 1 to the
satisfied count; a label matching the python group with python at least
INTERMEDIATE is credited at once, while a python match with an
insufficient python dimension falls through, the label then being judged
against only the first group among ML, deep learning, statistics,
mathematics whose keywords occur in it. -/
theorem prereqContribution_fallthrough (u : UserSkills) (p : String) :
    prereqContribution u p = specFallthroughContribution u p ∧
    prereqContribution u p ≤ 1 := by
  refine ⟨?_, prereqContribution_le_one u p⟩
  unfold prereqContribution specFallthroughContribution matchesPythonGroup
    matchesMlGroup matchesDlGroup matchesStatsGroup matchesMathGroup
  simp only [levelIn_intermediate_advanced]

/-! ### Growth potential: C8 -/

theorem levelIn_none_beginner (l : SkillLevel) :
    levelIn l ["none", "beginner"] = belowIntermediate l := by
  cases l <;> rfl

theorem count_true_four (b1 b2 b3 b4 : Bool) :
    List.count true [b1, b2, b3, b4] =
      (if b1 then 1 else 0) + (if b2 then 1 else 0) +
      (if b3 then 1 else 0) + (if b4 then 1 else 0) := by
  cases b1 <;> cases b2 <;> cases b3 <;> cases b4 <;> rfl

theorem min_half_cap (n : ℕ) :
    min ((n : ℚ) / 2) 1 = ((min n 2 : ℕ) : ℚ) / 2 := by
  rcases le_or_lt n 2 with h | h
  · rw [Nat.min_eq_left h, min_eq_left]
    rw [div_le_one (by norm_num)]
    exact_mod_cast h
  · rw [Nat.min_eq_right (le_of_lt h), min_eq_right]
    · norm_num
    · rw [le_div_iff₀ (by norm_num)]
      have : (2 : ℚ) < (n : ℚ) := by exact_mod_cast h
      linarith

/-- C8: the growth-potential sub-score is 0.5 for a course with no
granted-skill labels, and otherwise the number of growth areas (NLP,
computer vision, deep learning/neural-network, deployment/ops) whose
keywords appear in the granted-skill text while the profile's dimension is
NONE or BEGINNER, capped at 2 and divided by 2. -/
theorem calculateGrowthPotential_eq_spec (c : Course) (u : UserSkills) :
    calculateGrowthPotential c u = specGrowthPotential c u := by
  unfold calculateGrowthPotential specGrowthPotential growthAreaFlags
  dsimp only
  split
  · rfl
  · rw [count_true_four]
    simp only [levelIn_none_beginner]
    rw [min_half_cap]

/-! ### Seed catalog fallback: C7 -/

/-- C7: with no record from any catalog source the loader returns the
built-in seed catalog, which has 12 records and spans the two programs
"AI" and "AI Product". -/
theorem loadCourses_fallback :
    loadCourses [] = getDefaultCourses ∧
    getDefaultCourses ≠ [] ∧
    getDefaultCourses.length = 12 ∧
    "AI" ∈ getDefaultCourses.map (fun c => c.program) ∧
    "AI Product" ∈ getDefaultCourses.map (fun c => c.program) ∧
    ("AI" : String) ≠ "AI Product" := by
  refine ⟨rfl, by decide, by decide, by decide, by decide, by decide⟩

/-! ### The empty interest string: C10 -/

theorem strOccurs_empty_left (s : String) : strOccurs "" s = true := by
  unfold strOccurs
  have h : ("" : String).toList = [] := rfl
  rw [h]
  cases s.toList with
  | nil => rfl
  | cons c r => simp [hasSub, leadsWith]

theorem pyJoin_cons_head (sep a : String) (t : List String) :
    ∃ rest, pyJoin sep (a :: t) = a ++ rest := by
  cases t with
  | nil => exact ⟨"", (String.append_empty a).symm⟩
  | cons b r =>
    refine ⟨sep ++ pyJoin sep (b :: r), ?_⟩
    show a ++ sep ++ pyJoin sep (b :: r) = a ++ (sep ++ pyJoin sep (b :: r))
    exact String.append_assoc a sep (pyJoin sep (b :: r))

/-- C10: when the interest list contains the empty string, every course
matches it (the empty string occurs in every name and description), the
interest sub-score sits at its 0.4 cap, and the reasoning string of
_score_course opens with the interest-match clause listing the matched
interests, the empty one among them. -/
theorem scoreCourse_empty_interest (c : Course) (u : UserSkills)
    (ints : List String) (h : "" ∈ ints) :
    "" ∈ interestMatches c ints ∧
    interestComponent c ints = 2 / 5 ∧
    ∃ rest, (scoreCourse c u ints).2 =
      "Соответствует интересам: " ++ pyJoin ", " (interestMatches c ints) ++ rest := by
  have hmem : "" ∈ interestMatches c ints := by
    unfold interestMatches
    rw [List.mem_filter]
    refine ⟨h, ?_⟩
    have hl : lowerStr "" = "" := rfl
    rw [hl, strOccurs_empty_left]
    rfl
  have hne : interestMatches c ints ≠ [] := List.ne_nil_of_mem hmem
  have hlen : 1 ≤ (interestMatches c ints).length :=
    List.length_pos.mpr hne
  have hcomp : interestComponent c ints = 2 / 5 := by
    unfold interestComponent interestScoreRaw
    rw [min_eq_right]
    have hq : (1 : ℚ) ≤ ((interestMatches c ints).length : ℚ) := by exact_mod_cast hlen
    nlinarith
  refine ⟨hmem, hcomp, ?_⟩
  unfold scoreCourse
  dsimp only
  unfold scoreReasons
  rw [if_neg hne]
  simp only [List.singleton_append, List.cons_append]
  rw [if_neg (List.cons_ne_nil _ _)]
  exact pyJoin_cons_head "; " _ _

/-- Closed instance of the C10 theorem at a concrete course, profile and
interest list. -/
theorem scoreCourse_empty_interest_witness :
    "" ∈ ([""] : List String) ∧
    ("" ∈ interestMatches c10Course [""] ∧
     interestComponent c10Course [""] = 2 / 5 ∧
     ∃ rest, (scoreCourse c10Course {} [""]).2 =
       "Соответствует интересам: " ++ pyJoin ", " (interestMatches c10Course [""]) ++ rest) :=
  ⟨by decide, scoreCourse_empty_interest c10Course {} [""] (by decide)⟩

/-! ### Skill-profile derivation: C6 -/

/-- C6: the skill-profile derivation case-folds the background and sets
each dimension according to its keyword hits on the case-folded text:
python is INTERMEDIATE on a python-keyword hit but forced to ADVANCED by
"senior" or "lead"; a quantitative keyword forces math to ADVANCED and
statistics to INTERMEDIATE; statistics and ML basics are also raised to
INTERMEDIATE by the data-science keywords; the remaining dimensions become
INTERMEDIATE exactly on their keyword hits; unmatched dimensions stay
NONE, and the empty background yields the all-NONE profile. -/
theorem from_background_characterized (bg : String) :
    ((UserSkills.from_background bg).python =
      (if strOccurs "senior" (lowerStr bg) || strOccurs "lead" (lowerStr bg) then .advanced
       else if containsAny (lowerStr bg) ["python", "питон", "программирован"] then .intermediate
       else .none)) ∧
    ((UserSkills.from_background bg).math =
      (if containsAny (lowerStr bg) ["математик", "math", "физик", "мехмат"] then .advanced
       else .none)) ∧
    ((UserSkills.from_background bg).statistics =
      (if containsAny (lowerStr bg) ["математик", "math", "физик", "мехмат"]
          || containsAny (lowerStr bg) ["data scien", "ds", "аналитик данных"] then
         .intermediate
       else .none)) ∧
    ((UserSkills.from_background bg).ml_basics =
      (if containsAny (lowerStr bg) ["ml", "machine learning", "машинн"]
          || containsAny (lowerStr bg) ["data scien", "ds", "аналитик данных"] then
         .intermediate
       else .none)) ∧
    ((UserSkills.from_background bg).deep_learning =
      (if containsAny (lowerStr bg) ["deep learning", "нейронн", "pytorch", "tensorflow"] then
         .intermediate
       else .none)) ∧
    ((UserSkills.from_background bg).nlp =
      (if containsAny (lowerStr bg) ["nlp", "нлп", "обработка текст", "natural language"] then
         .intermediate
       else .none)) ∧
    ((UserSkills.from_background bg).computer_vision =
      (if containsAny (lowerStr bg) ["computer vision", "cv", "компьютерн зрен", "opencv"] then
         .intermediate
       else .none)) ∧
    ((UserSkills.from_background bg).mlops =
      (if containsAny (lowerStr bg) ["mlops", "devops", "docker", "kubernetes", "deploy"] then
         .intermediate
       else .none)) ∧
    UserSkills.from_background "" = ({} : UserSkills) := by
  refine ⟨?_, ?_, ?_, ?_, ?_, ?_, ?_, ?_, by decide⟩
  · simp [UserSkills.from_background, apply_ite UserSkills.python]
  · simp [UserSkills.from_background, apply_ite UserSkills.math]
  · simp only [UserSkills.from_background, apply_ite UserSkills.statistics,
      UserSkills.setMlops_statistics, UserSkills.setComputerVision_statistics,
      UserSkills.setNlp_statistics, UserSkills.setDeepLearning_statistics,
      UserSkills.setStatistics_statistics, UserSkills.setMlBasics_statistics,
      UserSkills.setMath_statistics, UserSkills.setPython_statistics, ite_self]
    by_cases hm : containsAny (lowerStr bg) ["математик", "math", "физик", "мехмат"] = true <;>
      by_cases hd : containsAny (lowerStr bg) ["data scien", "ds", "аналитик данных"] = true <;>
      simp [hm, hd]
  · simp only [UserSkills.from_background, apply_ite UserSkills.ml_basics,
      UserSkills.setMlops_ml_basics, UserSkills.setComputerVision_ml_basics,
      UserSkills.setNlp_ml_basics, UserSkills.setDeepLearning_ml_basics,
      UserSkills.setStatistics_ml_basics, UserSkills.setMlBasics_ml_basics,
      UserSkills.setMath_ml_basics, UserSkills.setPython_ml_basics, ite_self]
    by_cases hm : containsAny (lowerStr bg) ["ml", "machine learning", "машинн"] = true <;>
      by_cases hd : containsAny (lowerStr bg) ["data scien", "ds", "аналитик данных"] = true <;>
      simp [hm, hd]
  · simp [UserSkills.from_background, apply_ite UserSkills.deep_learning]
  · simp [UserSkills.from_background, apply_ite UserSkills.nlp]
  · simp [UserSkills.from_background, apply_ite UserSkills.computer_vision]
  · simp [UserSkills.from_background, apply_ite UserSkills.mlops]

/-! ### Study-plan builder: C5 -/

theorem mem_pyRange1 {n i : ℤ} : i ∈ pyRange1 n ↔ 1 ≤ i ∧ i ≤ n := by
  unfold pyRange1
  simp only [List.mem_map, List.mem_range]
  constructor
  · rintro ⟨a, ha, rfl⟩
    omega
  · rintro ⟨h1, h2⟩
    exact ⟨(i - 1).toNat, by omega, by omega⟩

theorem pyRange1_nodup (n : ℤ) : (pyRange1 n).Nodup := by
  unfold pyRange1
  exact (List.nodup_range _).map (fun a b h => by omega)

theorem dictAppend_map (l : List ℤ) (g : ℤ → List Course) (k : ℤ) (c : Course)
    (hk : k ∈ l) (hnd : l.Nodup) :
    dictAppend (l.map (fun i => (i, g i))) k c =
      Option.some (l.map (fun i => (i, if i = k then g i ++ [c] else g i))) := by
  induction l with
  | nil => cases hk
  | cons a t ih =>
    rw [List.map_cons, List.map_cons]
    rw [dictAppend]
    by_cases hak : a = k
    · rw [if_pos hak]
      subst hak
      have hnotmem : a ∉ t := (List.nodup_cons.mp hnd).1
      rw [if_pos rfl]
      congr 2
      exact (List.map_congr_left (fun i hi => by
        rw [if_neg (by rintro rfl; exact hnotmem hi)])).symm
    · rw [if_neg hak]
      have hk' : k ∈ t := by
        rcases List.mem_cons.mp hk with h | h
        · exact absurd h.symm hak
        · exact h
      rw [ih hk' (List.nodup_cons.mp hnd).2]
      rw [Option.map_some']
      rw [if_neg hak]

theorem studyPlan_fold (H : ℤ) (recs : List CourseRecommendation) :
    ∀ (g : ℤ → List Course), (∀ r ∈ recs, 1 ≤ r.course.semester) →
      List.foldlM
        (fun plan r =>
          if r.course.semester ≤ H then dictAppend plan r.course.semester r.course
          else Option.some plan)
        ((pyRange1 H).map (fun i => (i, g i))) recs =
      Option.some ((pyRange1 H).map (fun i =>
        (i, g i ++ (recs.filter (fun r => r.course.semester = i)).map
          (fun r => r.course)))) := by
  induction recs with
  | nil =>
    intro g h
    rw [List.foldlM_nil]
    simp
  | cons r t ih =>
    intro g hall
    rw [List.foldlM_cons]
    by_cases hle : r.course.semester ≤ H
    · rw [if_pos hle]
      have hk : r.course.semester ∈ pyRange1 H :=
        mem_pyRange1.mpr ⟨hall r (List.mem_cons_self _ _), hle⟩
      rw [dictAppend_map _ g _ _ hk (pyRange1_nodup H)]
      show List.foldlM _ _ t = _
      rw [ih (fun i => if i = r.course.semester then g i ++ [r.course] else g i)
        (fun x hx => hall x (List.mem_cons_of_mem _ hx))]
      congr 1
      apply List.map_congr_left
      intro i hi
      by_cases his : r.course.semester = i
      · rw [List.filter_cons_of_pos (by simpa using his), if_pos his.symm]
        simp [List.append_assoc]
      · rw [List.filter_cons_of_neg (by simpa using his), if_neg (fun h => his h.symm)]
    · rw [if_neg hle]
      show List.foldlM _ _ t = _
      rw [ih g (fun x hx => hall x (List.mem_cons_of_mem _ hx))]
      congr 1
      apply List.map_congr_left
      intro i hi
      have hiH : i ≤ H := (mem_pyRange1.mp hi).2
      rw [List.filter_cons_of_neg (by simp; omega)]

/-- C5 counterexample: a recommendation whose course has term number 0 and
horizon 1 makes the study-plan builder fail with a KeyError (modelled as
none) instead of returning a bucket mapping, although the term 0 is within
the horizon. -/
theorem getStudyPlan_keyError_on_term_zero :
    getStudyPlan [c5BadRec] 1 = Option.none ∧
    c5BadRec.course.semester ≤ 1 ∧ (1 : ℤ) ≤ 1 := by
  decide

/-- C5 amended: provided every recommended course's term number is at
least 1, the study-plan builder with horizon H ≥ 1 returns the mapping
whose keys are exactly the terms 1..H in order, bucket i holding, in input
(priority) order, exactly the recommendations whose term equals i, so that
recommendations whose term exceeds H appear in no bucket. -/
theorem getStudyPlan_eq_buckets (recs : List CourseRecommendation) (H : ℤ)
    (hpos : ∀ r ∈ recs, 1 ≤ r.course.semester) (_hH : 1 ≤ H) :
    getStudyPlan recs H = Option.some (bucketsSpec recs H) := by
  unfold getStudyPlan bucketsSpec
  dsimp only
  have h := studyPlan_fold H recs (fun _ => []) hpos
  simpa using h

/-- Closed instance of the amended C5 theorem: horizon 2 over a term-1 and
a term-3 recommendation; the term-3 course lands in no bucket. -/
theorem getStudyPlan_eq_buckets_witness :
    (∀ r ∈ [c5RecA, c5RecB], 1 ≤ r.course.semester) ∧ (1 : ℤ) ≤ 2 ∧
    getStudyPlan [c5RecA, c5RecB] 2 = Option.some (bucketsSpec [c5RecA, c5RecB] 2) :=
  ⟨by decide, by decide, getStudyPlan_eq_buckets [c5RecA, c5RecB] 2 (by decide) (by decide)⟩

/-! ### Ranker: C3 and C4 -/

theorem pythonTake_sublist (m : ℤ) (l : List α) : (pythonTake m l).Sublist l := by
  unfold pythonTake
  split <;> exact List.take_sublist _ _

theorem mapIdx_priority_scores (l : List CourseRecommendation) :
    (l.mapIdx (fun i r => { r with priority := (i : ℤ) + 1 })).map
        (fun r => r.score) =
      l.map (fun r => r.score) := by
  rw [List.mapIdx_eq_enum_map, List.map_map]
  have h : ((fun r : CourseRecommendation => r.score) ∘
      Function.uncurry (fun (i : ℕ) (r : CourseRecommendation) =>
        { r with priority := (i : ℤ) + 1 })) =
      ((fun r : CourseRecommendation => r.score) ∘ Prod.snd) := rfl
  rw [h, ← List.map_map, List.enum_map_snd]

theorem mapIdx_priority_priorities (l : List CourseRecommendation) :
    (l.mapIdx (fun i r => { r with priority := (i : ℤ) + 1 })).map
        (fun r => r.priority) =
      (List.range l.length).map (fun i : ℕ => (i : ℤ) + 1) := by
  rw [List.mapIdx_eq_enum_map, List.map_map]
  have h : ((fun r : CourseRecommendation => r.priority) ∘
      Function.uncurry (fun (i : ℕ) (r : CourseRecommendation) =>
        { r with priority := (i : ℤ) + 1 })) =
      ((fun i : ℕ => (i : ℤ) + 1) ∘ Prod.fst) := rfl
  rw [h, ← List.map_map, List.enum_map_fst]

theorem mergeSort_score_pairwise (l : List CourseRecommendation) :
    List.Pairwise (fun a b : CourseRecommendation => b.score ≤ a.score)
      (l.mergeSort (fun a b => b.score ≤ a.score)) := by
  have ht : ∀ (a b c : CourseRecommendation),
      (decide (b.score ≤ a.score)) = true → (decide (c.score ≤ b.score)) = true →
      (decide (c.score ≤ a.score)) = true := fun a b c hab hbc =>
    decide_eq_true (le_trans (of_decide_eq_true hbc) (of_decide_eq_true hab))
  have htot : ∀ (a b : CourseRecommendation),
      (decide (b.score ≤ a.score) || decide (a.score ≤ b.score)) = true := by
    intro a b
    rcases le_total b.score a.score with h | h <;> simp [h]
  exact (List.sorted_mergeSort ht htot l).imp (fun h => of_decide_eq_true h)

/-- C3: the output of recommend_courses is sorted with non-increasing
scores over adjacent pairs, and its priorities are exactly 1..k in order,
where k is the output length. -/
theorem recommendCourses_sorted_priorities (courses : List Course)
    (background : String) (interests : List String) (program : Option String)
    (limit : ℤ) :
    List.Chain' (fun a b => b.score ≤ a.score)
      (recommendCourses courses background interests program limit) ∧
    (recommendCourses courses background interests program limit).map
        (fun r => r.priority) =
      (List.range
        (recommendCourses courses background interests program limit).length).map
        (fun i : ℕ => (i : ℤ) + 1) := by
  unfold recommendCourses
  dsimp only
  split
  · exact ⟨by simp, by simp⟩
  · have hsub := List.Pairwise.sublist (pythonTake_sublist limit _)
      (mergeSort_score_pairwise
        ((getElectiveCourses courses program).map (fun course =>
          { course := course
            score := (scoreCourse course (UserSkills.from_background background) interests).1
            reasoning := (scoreCourse course (UserSkills.from_background background) interests).2
            priority := 0 })))
    constructor
    · exact (List.chain'_map (R := fun x y : ℚ => y ≤ x)
        (fun r : CourseRecommendation => r.score)).mp
        (by
          rw [mapIdx_priority_scores]
          exact ((List.pairwise_map (R := fun x y : ℚ => y ≤ x)
            (f := fun r : CourseRecommendation => r.score)).mpr hsub).chain')
    · rw [mapIdx_priority_priorities, List.length_mapIdx]

/-- C4: for limit > 0 the output length of recommend_courses is the
minimum of the limit and the number of elective courses passing the
program filter; an empty filtered set yields the empty output. -/
theorem recommendCourses_length (courses : List Course) (background : String)
    (interests : List String) (program : Option String) (limit : ℤ)
    (h : 0 < limit) :
    (recommendCourses courses background interests program limit).length =
      min limit.toNat (getElectiveCourses courses program).length := by
  unfold recommendCourses
  dsimp only
  split
  · rename_i he
    rw [he]
    simp
  · rw [List.length_mapIdx]
    unfold pythonTake
    rw [if_neg (by omega)]
    rw [List.length_take, List.length_mergeSort, List.length_map]

/-- Closed instance of the C4 theorem: the seed catalog has 6 electives,
so limit 3 returns exactly 3 recommendations. -/
theorem recommendCourses_length_witness :
    (0 : ℤ) < 3 ∧
    (recommendCourses getDefaultCourses "" [] Option.none 3).length =
      min (3 : ℤ).toNat (getElectiveCourses getDefaultCourses Option.none).length :=
  ⟨by decide, recommendCourses_length getDefaultCourses "" [] Option.none 3 (by decide)⟩

end Advisor
